import Mathlib

/-!
Verification of the haven fly-scan core (Aerotech PSO fly scanning) and of
three supporting device behaviours (ion-chamber triggering, XIA PFCU shutter
bit conversions, configuration overrides).

The fly-scan module (`haven.instrument.aerotech` / `haven.instrument.stage`)
is not part of the source tree available here; only its test suite
(`src/haven/tests/test_aerotech.py`) is.  Those parts are therefore modelled
from the specification, with the concrete numeric scenarios of the spec
(which coincide with the repository's tests) fixing the arithmetic where the
spec's prose is ambiguous or inconsistent.  All arithmetic is carried out in
exact rationals.
-/

namespace Haven

/-- Modelled from the spec: `ScanParameters` (spec section 3).  The fly-scan
module is missing from the source tree; the record collects the user-supplied
signals read by the fly-parameter calculation.  `acceleration` is the value of
the flyer's acceleration signal, which the tests set with a comment marking it
as seconds (an acceleration *time*). -/
structure ScanParameters where
  startPosition : ℚ
  endPosition : ℚ
  stepSize : ℚ
  dwellTime : ℚ
  acceleration : ℚ
  encoderResolution : ℚ
deriving Repr, DecidableEq

/-- Modelled from the spec: travel direction, `+1` when moving towards larger
positions and `-1` otherwise (spec section 4.2 step 1). -/
def dirQ (p : ScanParameters) : ℚ :=
  if p.startPosition ≤ p.endPosition then 1 else -1

/-- Modelled from the spec: slew speed `step_size / dwell_time`
(spec section 4.2 step 2). -/
def slewSpeed (p : ScanParameters) : ℚ :=
  p.stepSize / p.dwellTime

/-- Modelled from the spec: the PSO region start, half a step before the first
requested position (spec section 4.2 step 3). -/
def psoStart (p : ScanParameters) : ℚ :=
  p.startPosition - dirQ p * (p.stepSize / 2)

/-- Modelled from the spec: the PSO region end, half a step past the last
requested position (spec section 4.2 step 3). -/
def psoEnd (p : ScanParameters) : ℚ :=
  p.endPosition + dirQ p * (p.stepSize / 2)

/-- Modelled from the spec: the taxi distance appended after the PSO region.
The spec's concrete scenarios (section 8, identical to the repository's
tests) fix it as the distance needed to accelerate to slew speed when the
acceleration signal holds an acceleration time, `slew_speed * accel_time / 2`,
times a 1.5 safety factor. -/
def taxiDist (p : ScanParameters) : ℚ :=
  slewSpeed p * p.acceleration / 2 * (3 / 2)

/-- Modelled from the spec: taxi start position.  The spec's concrete
scenarios (section 8) place it one full step before the PSO region start;
they are inconsistent with the symmetric formula of spec section 4.2 step 4. -/
def taxiStart (p : ScanParameters) : ℚ :=
  psoStart p - dirQ p * p.stepSize

/-- Modelled from the spec: taxi end position, the acceleration distance
`taxiDist` past the PSO region end (spec section 8 concrete scenarios). -/
def taxiEnd (p : ScanParameters) : ℚ :=
  psoEnd p + dirQ p * taxiDist p

/-- Modelled from the spec: pulse spacing in encoder counts,
`round(step_size / encoder_resolution)` (spec sections 4.1 and 4.2). -/
def encoderStepSize (p : ScanParameters) : ℤ :=
  round (p.stepSize / p.encoderResolution)

/-- Modelled from the spec: number of pixel positions.  Spec section 4.2
step 5 includes an arithmetic-sequence member while it does not exceed
`end_position` by more than a half-step tolerance; in closed form the count
is `floor(|end - start| / step + 1/2) + 1`. -/
def numPixels (p : ScanParameters) : ℕ :=
  (⌊|p.endPosition - p.startPosition| / p.stepSize + 1 / 2⌋).toNat + 1

/-- Modelled from the spec: `pixel_positions`, the arithmetic sequence of
expected detector-trigger positions (spec section 4.2 step 5). -/
def pixelPositions (p : ScanParameters) : List ℚ :=
  (List.range (numPixels p)).map
    (fun (i : ℕ) => p.startPosition + dirQ p * p.stepSize * (i : ℚ))

/-- Modelled from the spec: `pso_positions`, `numPixels + 1` evenly spaced
values from `pso_start` to `pso_end` inclusive (spec section 4.2 step 6). -/
def psoPositions (p : ScanParameters) : List ℚ :=
  (List.range (numPixels p + 1)).map
    (fun (i : ℕ) => psoStart p + (psoEnd p - psoStart p) * (i : ℚ) / (numPixels p : ℚ))

/-- Modelled from the spec: `encoder_pso_positions`, evenly spaced from `0`
to `|pso_end - pso_start| / encoder_resolution` with the same count
(spec section 4.2 step 7). -/
def encoderPsoPositions (p : ScanParameters) : List ℚ :=
  (List.range (numPixels p + 1)).map
    (fun (i : ℕ) =>
      |psoEnd p - psoStart p| / p.encoderResolution * (i : ℚ) / (numPixels p : ℚ))

/-- The forward concrete scenario of spec section 8 (scenario A), also used
by the repository's tests: `start=10.05`, `end=19.95`, `step=0.1`,
`dwell=1 s`, `acceleration=0.5`, `encoder_resolution=0.001`. -/
def scenarioA : ScanParameters :=
  { startPosition := 10.05
    endPosition := 19.95
    stepSize := 0.1
    dwellTime := 1
    acceleration := 0.5
    encoderResolution := 0.001 }

/-- The reverse concrete scenario of spec section 8 (scenario B):
scenario A with start and end swapped. -/
def scenarioB : ScanParameters :=
  { startPosition := 19.95
    endPosition := 10.05
    stepSize := 0.1
    dwellTime := 1
    acceleration := 0.5
    encoderResolution := 0.001 }

/-- Evaluating an evenly spaced table built by mapping over `List.range`. -/
lemma rangeMap_getD (n : ℕ) (f : ℕ → ℚ) (i : ℕ) (h : i < n) :
    ((List.range n).map f).getD i 0 = f i := by
  rw [List.getD_eq_getElem _ _ (by simpa using h)]
  simp

/-- Length of the number-of-pixels list. -/
lemma pixelPositions_length (p : ScanParameters) :
    (pixelPositions p).length = numPixels p := by
  simp [pixelPositions]

/-- C1: for `ScanParameters` start=10.05, end=19.95, step=0.1, dwell=1 s,
acceleration=0.5, encoder_resolution=0.001 (micron units), the computed
motion profile has pso_start=10.0, pso_end=20.0, slew_speed=0.1,
taxi_start=9.9, taxi_end=20.0375 and encoder_step_size=100 counts. -/
theorem flyParams_forward_scenario :
    psoStart scenarioA = 10 ∧
    psoEnd scenarioA = 20 ∧
    slewSpeed scenarioA = 0.1 ∧
    taxiStart scenarioA = 9.9 ∧
    taxiEnd scenarioA = 20.0375 ∧
    encoderStepSize scenarioA = 100 := by
  refine ⟨?_, ?_, ?_, ?_, ?_, ?_⟩ <;>
    norm_num [psoStart, psoEnd, slewSpeed, taxiStart, taxiEnd, taxiDist,
      dirQ, encoderStepSize, scenarioA]

/-- C2 counterexample: on the forward concrete scenario the two taxi offsets
differ (step 0.1 at the start side, 0.0375 at the end side), so no single
distance `d` satisfies `taxi_start = pso_start - d` and
`taxi_end = pso_end + d`; in particular the claimed
`d = slew_speed^2/(2*acceleration) + step_size/2` gives the wrong
`taxi_start`. -/
theorem taxi_symmetry_counterexample :
    psoStart scenarioA - taxiStart scenarioA ≠ taxiEnd scenarioA - psoEnd scenarioA ∧
    taxiStart scenarioA ≠
      psoStart scenarioA -
        (slewSpeed scenarioA ^ 2 / (2 * scenarioA.acceleration) +
          scenarioA.stepSize / 2) := by
  constructor <;>
    norm_num [psoStart, psoEnd, slewSpeed, taxiStart, taxiEnd, taxiDist,
      dirQ, scenarioA]

/-- C2 (amended): the taxi offsets are asymmetric.  The taxi start sits one
full step before the PSO start, while the taxi end sits past the PSO end by
the acceleration distance `slew_speed^2 / (2*a)` (for the effective
acceleration `a = slew_speed / acceleration_time`) times a 1.5 safety
factor, which simplifies to `3/4 * slew_speed * acceleration_time`. -/
theorem taxi_positions_amended (p : ScanParameters)
    (hs : 0 < p.stepSize) (hd : 0 < p.dwellTime) (ha : 0 < p.acceleration) :
    taxiStart p = psoStart p - dirQ p * p.stepSize ∧
    taxiEnd p = psoEnd p +
      dirQ p * (slewSpeed p ^ 2 / (2 * (slewSpeed p / p.acceleration)) * (3 / 2)) ∧
    |psoStart p - taxiStart p| = p.stepSize ∧
    |taxiEnd p - psoEnd p| = slewSpeed p * p.acceleration * 3 / 4 := by
  have hslew : (0 : ℚ) < slewSpeed p := div_pos hs hd
  have hdir : |dirQ p| = 1 := by
    unfold dirQ; split <;> norm_num
  refine ⟨rfl, ?_, ?_, ?_⟩
  · unfold taxiEnd taxiDist
    congr 1
    congr 1
    field_simp
    ring
  · have : psoStart p - taxiStart p = dirQ p * p.stepSize := by
      unfold taxiStart; ring
    rw [this, abs_mul, hdir, one_mul, abs_of_pos hs]
  · have : taxiEnd p - psoEnd p = dirQ p * taxiDist p := by
      unfold taxiEnd; ring
    rw [this, abs_mul, hdir, one_mul, taxiDist,
      abs_of_pos (by positivity : (0 : ℚ) < slewSpeed p * p.acceleration / 2 * (3 / 2))]
    ring

/-- Witness for `taxi_positions_amended` at the forward concrete scenario. -/
theorem taxi_positions_amended_witness :
    0 < scenarioA.stepSize ∧ 0 < scenarioA.dwellTime ∧ 0 < scenarioA.acceleration ∧
    |psoStart scenarioA - taxiStart scenarioA| = scenarioA.stepSize := by
  refine ⟨by norm_num [scenarioA], by norm_num [scenarioA], by norm_num [scenarioA], ?_⟩
  exact (taxi_positions_amended scenarioA (by norm_num [scenarioA])
    (by norm_num [scenarioA]) (by norm_num [scenarioA])).2.2.1

/-- C3: for every valid `ScanParameters` the profile has
`len(pso_positions) = len(pixel_positions) + 1` with at least one pixel;
`pso_positions` runs evenly spaced from `pso_start` to `pso_end` inclusive,
and `encoder_pso_positions` runs evenly spaced from `0` with the same
count. -/
theorem pso_positions_spacing (p : ScanParameters)
    (_hs : 0 < p.stepSize) (_hd : 0 < p.dwellTime) (_hr : 0 < p.encoderResolution) :
    1 ≤ (pixelPositions p).length ∧
    (psoPositions p).length = (pixelPositions p).length + 1 ∧
    (psoPositions p).getD 0 0 = psoStart p ∧
    (psoPositions p).getD (pixelPositions p).length 0 = psoEnd p ∧
    (∀ i, i + 1 < (psoPositions p).length →
      (psoPositions p).getD (i + 1) 0 - (psoPositions p).getD i 0 =
        (psoEnd p - psoStart p) / ((pixelPositions p).length : ℚ)) ∧
    (encoderPsoPositions p).length = (pixelPositions p).length + 1 ∧
    (encoderPsoPositions p).getD 0 0 = 0 ∧
    (∀ i, i + 1 < (encoderPsoPositions p).length →
      (encoderPsoPositions p).getD (i + 1) 0 - (encoderPsoPositions p).getD i 0 =
        |psoEnd p - psoStart p| / p.encoderResolution / ((pixelPositions p).length : ℚ)) := by
  have hlen := pixelPositions_length p
  have hn0 : 0 < numPixels p := Nat.succ_pos _
  have hnz : ((numPixels p : ℚ)) ≠ 0 := Nat.cast_ne_zero.mpr hn0.ne'
  refine ⟨?_, ?_, ?_, ?_, ?_, ?_, ?_, ?_⟩
  · rw [hlen]; exact hn0
  · simp [psoPositions, hlen]
  · rw [psoPositions, rangeMap_getD _ _ 0 (Nat.succ_pos _)]
    simp
  · rw [psoPositions, hlen, rangeMap_getD _ _ (numPixels p) (Nat.lt_succ_self _)]
    field_simp
  · intro i hi
    rw [psoPositions] at hi ⊢
    simp only [List.length_map, List.length_range] at hi
    rw [rangeMap_getD _ _ (i + 1) hi, rangeMap_getD _ _ i (Nat.lt_of_succ_lt hi), hlen]
    push_cast
    field_simp
    ring
  · simp [encoderPsoPositions, hlen]
  · rw [encoderPsoPositions, rangeMap_getD _ _ 0 (Nat.succ_pos _)]
    simp
  · intro i hi
    rw [encoderPsoPositions] at hi ⊢
    simp only [List.length_map, List.length_range] at hi
    rw [rangeMap_getD _ _ (i + 1) hi, rangeMap_getD _ _ i (Nat.lt_of_succ_lt hi), hlen]
    push_cast
    field_simp
    ring

/-- Witness for `pso_positions_spacing` at the forward concrete scenario. -/
theorem pso_positions_spacing_witness :
    0 < scenarioA.stepSize ∧ 0 < scenarioA.dwellTime ∧ 0 < scenarioA.encoderResolution ∧
    (psoPositions scenarioA).length = (pixelPositions scenarioA).length + 1 := by
  refine ⟨by norm_num [scenarioA], by norm_num [scenarioA], by norm_num [scenarioA], ?_⟩
  exact (pso_positions_spacing scenarioA (by norm_num [scenarioA])
    (by norm_num [scenarioA]) (by norm_num [scenarioA])).2.1

/-! ## PSO controller: enable_pso command sequence and its validity check -/

/-- Modelled from the spec: the validation failure of spec sections 4.3/7
(`InvalidScanParameters`). -/
inductive PsoFault where
  | invalidScanParameters
deriving Repr, DecidableEq

/-- Modelled from the spec: the signals `enable_pso` reads on the flyer when
it is called (spec sections 4.3 and 4.4).  The window bounds are nullable;
an unset window end means the window is disabled. -/
structure PSOConfig where
  axis : String
  encoderInput : ℤ
  encoderStepSizeCounts : ℤ
  encoderWindowStart : Option ℤ
  encoderWindowEnd : Option ℤ
  encoderResolution : ℚ
  psoStartPos : ℚ
  taxiStartPos : ℚ
  psoEndPos : ℚ
  taxiEndPos : ℚ

/-- Modelled from the spec: the taxi distance at the scan start, expressed
in encoder counts, exceeds the configured pulse spacing, so unguarded pulses
would fire during taxi motion (spec section 4.3; the comparison is on the
magnitude, so its sign flips with the scan direction). -/
def windowNeededStart (cfg : PSOConfig) : Prop :=
  (cfg.encoderStepSizeCounts : ℚ) <
    |cfg.taxiStartPos - cfg.psoStartPos| / cfg.encoderResolution

/-- Modelled from the spec: as `windowNeededStart` but at the scan end. -/
def windowNeededEnd (cfg : PSOConfig) : Prop :=
  (cfg.encoderStepSizeCounts : ℚ) <
    |cfg.taxiEndPos - cfg.psoEndPos| / cfg.encoderResolution

instance (cfg : PSOConfig) : Decidable (windowNeededStart cfg) := by
  unfold windowNeededStart; infer_instance

instance (cfg : PSOConfig) : Decidable (windowNeededEnd cfg) := by
  unfold windowNeededEnd; infer_instance

/-- Modelled from the spec: `enable_pso` (spec section 4.4).  The validation
check of spec sections 4.3/7 runs first, synchronously, before any command
is sent; on failure no command at all is emitted.  Otherwise the ordered
command sequence is produced: the eight commands when the encoder window is
in use, or six commands (with a plain `PULSE` output and no `PSOWINDOW`
lines) when the window end is unset. -/
def enablePso (cfg : PSOConfig) : Option PsoFault × List String :=
  if cfg.encoderWindowEnd.isNone ∧ (windowNeededStart cfg ∨ windowNeededEnd cfg) then
    (some PsoFault.invalidScanParameters, [])
  else
    (none,
      ["PSOCONTROL " ++ cfg.axis ++ " RESET",
       "PSOOUTPUT " ++ cfg.axis ++ " CONTROL 1",
       "PSOPULSE " ++ cfg.axis ++ " TIME 20, 10",
       if cfg.encoderWindowEnd.isSome then
         "PSOOUTPUT " ++ cfg.axis ++ " PULSE WINDOW MASK"
       else
         "PSOOUTPUT " ++ cfg.axis ++ " PULSE",
       "PSOTRACK " ++ cfg.axis ++ " INPUT " ++ toString cfg.encoderInput,
       "PSODISTANCE " ++ cfg.axis ++ " FIXED " ++ toString cfg.encoderStepSizeCounts] ++
      match cfg.encoderWindowStart, cfg.encoderWindowEnd with
      | some ws, some we =>
        ["PSOWINDOW " ++ cfg.axis ++ " 1 INPUT " ++ toString cfg.encoderInput,
         "PSOWINDOW " ++ cfg.axis ++ " 1 RANGE " ++ toString ws ++ "," ++ toString we]
      | _, _ => [])

/-- C4: with the encoder window enabled, `enable_pso` emits exactly the
eight commands of spec section 4.4 in order and no others; with the window
end unset the fourth command is `PSOOUTPUT <axis> PULSE` and both
`PSOWINDOW` commands are omitted, leaving six commands in the same relative
order. -/
theorem enable_pso_commands (cfg : PSOConfig)
    (hs : ¬ windowNeededStart cfg) (he : ¬ windowNeededEnd cfg) :
    (∀ ws we, cfg.encoderWindowStart = some ws → cfg.encoderWindowEnd = some we →
      enablePso cfg = (none,
        ["PSOCONTROL " ++ cfg.axis ++ " RESET",
         "PSOOUTPUT " ++ cfg.axis ++ " CONTROL 1",
         "PSOPULSE " ++ cfg.axis ++ " TIME 20, 10",
         "PSOOUTPUT " ++ cfg.axis ++ " PULSE WINDOW MASK",
         "PSOTRACK " ++ cfg.axis ++ " INPUT " ++ toString cfg.encoderInput,
         "PSODISTANCE " ++ cfg.axis ++ " FIXED " ++ toString cfg.encoderStepSizeCounts,
         "PSOWINDOW " ++ cfg.axis ++ " 1 INPUT " ++ toString cfg.encoderInput,
         "PSOWINDOW " ++ cfg.axis ++ " 1 RANGE " ++ toString ws ++ "," ++ toString we])) ∧
    (cfg.encoderWindowEnd = none →
      enablePso cfg = (none,
        ["PSOCONTROL " ++ cfg.axis ++ " RESET",
         "PSOOUTPUT " ++ cfg.axis ++ " CONTROL 1",
         "PSOPULSE " ++ cfg.axis ++ " TIME 20, 10",
         "PSOOUTPUT " ++ cfg.axis ++ " PULSE",
         "PSOTRACK " ++ cfg.axis ++ " INPUT " ++ toString cfg.encoderInput,
         "PSODISTANCE " ++ cfg.axis ++ " FIXED " ++ toString cfg.encoderStepSizeCounts])) := by
  constructor
  · intro ws we hws hwe
    unfold enablePso
    rw [if_neg (by simp [hwe])]
    rw [hws, hwe]
    simp [hwe]
  · intro hwe
    unfold enablePso
    rw [if_neg (by simp [hs, he])]
    rw [hwe]
    simp [hwe]

/-- The windowed configuration exercised by the repository's
`test_enable_pso`: axis `@0`, encoder 6, pulse spacing 50 counts, window
−5..10000 counts. -/
def winCfg : PSOConfig :=
  { axis := "@0"
    encoderInput := 6
    encoderStepSizeCounts := 50
    encoderWindowStart := some (-5)
    encoderWindowEnd := some 10000
    encoderResolution := 1
    psoStartPos := 0
    taxiStartPos := 0
    psoEndPos := 0
    taxiEndPos := 0 }

/-- The window-disabled configuration exercised by the repository's
`test_enable_pso_no_window`: as `winCfg` but with the window end unset. -/
def noWinCfg : PSOConfig :=
  { winCfg with encoderWindowEnd := none }

/-- Witness for `enable_pso_commands`, instantiated at both test
configurations; the produced strings are exactly the command lists of the
repository's tests. -/
theorem enable_pso_commands_witness :
    ¬ windowNeededStart winCfg ∧ ¬ windowNeededEnd winCfg ∧
    enablePso winCfg = (none,
      ["PSOCONTROL @0 RESET", "PSOOUTPUT @0 CONTROL 1", "PSOPULSE @0 TIME 20, 10",
       "PSOOUTPUT @0 PULSE WINDOW MASK", "PSOTRACK @0 INPUT 6",
       "PSODISTANCE @0 FIXED 50", "PSOWINDOW @0 1 INPUT 6",
       "PSOWINDOW @0 1 RANGE -5,10000"]) ∧
    enablePso noWinCfg = (none,
      ["PSOCONTROL @0 RESET", "PSOOUTPUT @0 CONTROL 1", "PSOPULSE @0 TIME 20, 10",
       "PSOOUTPUT @0 PULSE", "PSOTRACK @0 INPUT 6", "PSODISTANCE @0 FIXED 50"]) := by
  have hs : ¬ windowNeededStart winCfg := by
    unfold windowNeededStart winCfg; norm_num
  have he : ¬ windowNeededEnd winCfg := by
    unfold windowNeededEnd winCfg; norm_num
  have hs' : ¬ windowNeededStart noWinCfg := by
    unfold windowNeededStart noWinCfg winCfg; norm_num
  have he' : ¬ windowNeededEnd noWinCfg := by
    unfold windowNeededEnd noWinCfg winCfg; norm_num
  refine ⟨hs, he, ?_, ?_⟩
  · rw [(enable_pso_commands winCfg hs he).1 (-5) 10000 rfl rfl]
    rfl
  · rw [(enable_pso_commands noWinCfg hs' he').2 rfl]
    rfl

/-- C5: whenever the gating window is structurally required (the taxi
distance in encoder counts exceeds the configured pulse spacing, at either
boundary, in either scan direction) but no window is available (window end
unset), `enable_pso` fails with `InvalidScanParameters` and emits no
hardware command at all. -/
theorem enable_pso_invalid (cfg : PSOConfig)
    (hnone : cfg.encoderWindowEnd = none)
    (hneed : windowNeededStart cfg ∨ windowNeededEnd cfg) :
    enablePso cfg = (some PsoFault.invalidScanParameters, []) := by
  unfold enablePso
  rw [if_pos ⟨by simp [hnone], hneed⟩]

/-- The forward bad-window configuration of the repository's
`test_pso_bad_window_forward`: pulse spacing 5 counts, `pso_end=100`,
`taxi_end=110`, window end unset. -/
def badFwdCfg : PSOConfig :=
  { axis := "@0"
    encoderInput := 6
    encoderStepSizeCounts := 5
    encoderWindowStart := some (-5)
    encoderWindowEnd := none
    encoderResolution := 1
    psoStartPos := 0
    taxiStartPos := 0
    psoEndPos := 100
    taxiEndPos := 110 }

/-- The reverse bad-window configuration of the repository's
`test_pso_bad_window_reverse`: pulse spacing 5 counts, `pso_start=100`,
`taxi_start=94`, window end unset. -/
def badRevCfg : PSOConfig :=
  { axis := "@0"
    encoderInput := 6
    encoderStepSizeCounts := 5
    encoderWindowStart := none
    encoderWindowEnd := none
    encoderResolution := 1
    psoStartPos := 100
    taxiStartPos := 94
    psoEndPos := 0
    taxiEndPos := 0 }

/-- Witness for `enable_pso_invalid` at both the forward and the reverse
bad-window test configurations. -/
theorem enable_pso_invalid_witness :
    badFwdCfg.encoderWindowEnd = none ∧
    windowNeededEnd badFwdCfg ∧
    windowNeededStart badRevCfg ∧
    enablePso badFwdCfg = (some PsoFault.invalidScanParameters, []) ∧
    enablePso badRevCfg = (some PsoFault.invalidScanParameters, []) := by
  have hf : windowNeededEnd badFwdCfg := by
    unfold windowNeededEnd badFwdCfg
    rw [show |(110 : ℚ) - 100| = 10 by
      rw [show (110 : ℚ) - 100 = 10 by norm_num]; exact abs_of_nonneg (by norm_num)]
    norm_num
  have hr : windowNeededStart badRevCfg := by
    unfold windowNeededStart badRevCfg
    rw [show |(94 : ℚ) - 100| = 6 by
      rw [show (94 : ℚ) - 100 = -6 by norm_num]; rw [abs_neg]
      exact abs_of_nonneg (by norm_num)]
    norm_num
  exact ⟨rfl, hf, hr,
    enable_pso_invalid badFwdCfg rfl (Or.inr hf),
    enable_pso_invalid badRevCfg rfl (Or.inl hr)⟩

/-! ## DataCollector: per-pixel records with reconstructed timestamps -/

/-- Modelled from the spec: one collected record (spec sections 3 and 6).
A record is a mapping with exactly the three top-level keys `data`,
`timestamps` and `time`; the per-channel maps are keyed by logical channel
name. -/
structure CollectedDatum where
  data : List (String × ℚ)
  timestamps : List (String × ℚ)
  time : ℚ
deriving Repr, DecidableEq

/-- Modelled from the spec: the reconstructed timestamp of pixel `i`,
`starttime + dwell_time * (i + 1) + margin` with the calibration margin
`dwell_time / 8` observed in the reference system (spec section 4.5). -/
def pixelTimestamp (starttime dwellTime : ℚ) (i : ℕ) : ℚ :=
  starttime + dwellTime * ((i : ℚ) + 1) + dwellTime / 8

/-- Modelled from the spec: `collect()` (spec section 4.5), producing one
record per pixel position.  Each record reports the pixel position under the
positioner's readback and setpoint channels, with the reconstructed
timestamp for both channels and as the record's representative time. -/
def collect (channel : String) (pixelPos : List ℚ)
    (starttime dwellTime : ℚ) : List CollectedDatum :=
  pixelPos.enum.map fun ip =>
    { data := [(channel, ip.2), (channel ++ "_user_setpoint", ip.2)]
      timestamps :=
        [(channel, pixelTimestamp starttime dwellTime ip.1),
         (channel ++ "_user_setpoint", pixelTimestamp starttime dwellTime ip.1)]
      time := pixelTimestamp starttime dwellTime ip.1 }

/-- C6: `collect()` yields exactly one record per pixel position; over
`pixel_positions = [1..10]`, `starttime = 0`, `dwell_time = 1` the records
carry the representative times `[1.125, 2.125, ..., 10.125]`, and every
record consists of exactly the three parts `data`, `timestamps` and `time`,
with both channels reporting the pixel value and the shared timestamp. -/
theorem collect_records :
    (∀ channel pixelPos starttime dwellTime,
      (collect channel pixelPos starttime dwellTime).length = pixelPos.length) ∧
    collect "aerotech_horiz" [1, 2, 3, 4, 5, 6, 7, 8, 9, 10] 0 1 =
      [1, 2, 3, 4, 5, 6, 7, 8, 9, 10].enum.map (fun ip : ℕ × ℚ =>
        { data := [("aerotech_horiz", ip.2), ("aerotech_horiz_user_setpoint", ip.2)]
          timestamps :=
            [("aerotech_horiz", (ip.1 : ℚ) + 1.125),
             ("aerotech_horiz_user_setpoint", (ip.1 : ℚ) + 1.125)]
          time := (ip.1 : ℚ) + 1.125 }) ∧
    (collect "aerotech_horiz" [1, 2, 3, 4, 5, 6, 7, 8, 9, 10] 0 1).map
        (fun d => d.time) =
      [1.125, 2.125, 3.125, 4.125, 5.125, 6.125, 7.125, 8.125, 9.125, 10.125] := by
  refine ⟨?_, ?_, ?_⟩
  · intro channel pixelPos starttime dwellTime
    simp [collect]
  · simp only [collect, List.enum, List.enumFrom, List.map]
    norm_num [pixelTimestamp]
    rfl
  · simp only [collect, List.enum, List.enumFrom, List.map]
    norm_num [pixelTimestamp]

/-- C7 counterexample: over `pixel_positions = [1..10]`, `starttime = 0`,
`dwell_time = 1`, the first collected record's timestamp is `1.125`, not the
mid-dwell value `start_time + 0 * dwell_time + dwell_time / 2 = 0.5` the
claim derives. -/
theorem collect_timestamp_counterexample :
    ((collect "aerotech_horiz" [1, 2, 3, 4, 5, 6, 7, 8, 9, 10] 0 1).map
      (fun d => d.time)).getD 0 0 = 1.125 ∧
    (1.125 : ℚ) ≠ 0 + (0 : ℚ) * 1 + 1 / 2 := by
  constructor
  · simp only [collect, List.enum, List.enumFrom, List.map, List.getD]
    norm_num [pixelTimestamp]
  · norm_num

/-- C7 (amended): for every collected record, the timestamp at zero-based
index `i` equals `start_time + (i + 1) * dwell_time + dwell_time / 8` — the
dwell intervals are counted from one and the margin is `dwell_time / 8`,
not mid-dwell sampling. -/
theorem collect_timestamp_amended (channel : String) (pixelPos : List ℚ)
    (starttime dwellTime : ℚ) (i : ℕ)
    (h : i < (collect channel pixelPos starttime dwellTime).length) :
    ((collect channel pixelPos starttime dwellTime).get ⟨i, h⟩).time =
      starttime + ((i : ℚ) + 1) * dwellTime + dwellTime / 8 := by
  rw [List.get_eq_getElem]
  simp only [collect, List.getElem_map, List.getElem_enum]
  show pixelTimestamp starttime dwellTime i = _
  unfold pixelTimestamp
  ring

/-- Witness for `collect_timestamp_amended` at the first record of the
concrete collect scenario. -/
theorem collect_timestamp_amended_witness :
    0 < (collect "aerotech_horiz" [1, 2, 3, 4, 5, 6, 7, 8, 9, 10] 0 1).length ∧
    ((collect "aerotech_horiz" [1, 2, 3, 4, 5, 6, 7, 8, 9, 10] 0 1).get
        ⟨0, by simp [collect]⟩).time =
      0 + ((0 : ℚ) + 1) * 1 + 1 / 8 := by
  exact ⟨by simp [collect],
    collect_timestamp_amended "aerotech_horiz" [1, 2, 3, 4, 5, 6, 7, 8, 9, 10] 0 1 0
      (by simp [collect])⟩

/-! ## IonChamber.trigger: at most one acquisition in flight per scaler -/

/-- An ophyd status object as seen by `IonChamber.trigger`
(`src/haven/instrument/ion_chamber.py`): an identity plus its `done` flag. -/
structure TriggerStatus where
  sid : ℕ
  done : Bool
deriving Repr, DecidableEq

/-- The class-level `IonChamber._statuses` dictionary keyed by scaler
prefix, plus a counter supplying identities for statuses returned by
`super().trigger()`. -/
structure TriggerState where
  statuses : List (String × TriggerStatus)
  nextSid : ℕ
deriving Repr, DecidableEq

/-- `dict.get`: the first binding of the key, if any. -/
def lookupStatus : List (String × TriggerStatus) → String → Option TriggerStatus
  | [], _ => none
  | kv :: rest, k => if kv.1 == k then some kv.2 else lookupStatus rest k

/-- `dict[k] = v`: replace the binding of `k` in place, or append it. -/
def setStatus : List (String × TriggerStatus) → String → TriggerStatus →
    List (String × TriggerStatus)
  | [], k, v => [(k, v)]
  | kv :: rest, k, v =>
    if kv.1 == k then (k, v) :: rest else kv :: setStatus rest k v

/-- `super().trigger()` followed by `self._statuses[self.scaler_prefix] =
new_status`: start a fresh, not-yet-done acquisition and cache its status
under the scaler prefix. -/
def newAcquisition (st : TriggerState) (scalerPfx : String) :
    TriggerStatus × TriggerState :=
  let newStatus : TriggerStatus := { sid := st.nextSid, done := false }
  (newStatus,
    { statuses := setStatus st.statuses scalerPfx newStatus
      nextSid := st.nextSid + 1 })

/-- `IonChamber.trigger` (`src/haven/instrument/ion_chamber.py` lines
158-168): look up the previous status for this scaler prefix; if it exists
and is not done, return it unchanged; otherwise trigger a new acquisition
and cache its status. -/
def trigger (st : TriggerState) (scalerPfx : String) :
    TriggerStatus × TriggerState :=
  match lookupStatus st.statuses scalerPfx with
  | none => newAcquisition st scalerPfx
  | some previousStatus =>
    if previousStatus.done then newAcquisition st scalerPfx
    else (previousStatus, st)

/-- After caching a status it is the one looked up for that key. -/
lemma lookupStatus_setStatus (l : List (String × TriggerStatus))
    (k : String) (v : TriggerStatus) :
    lookupStatus (setStatus l k v) k = some v := by
  induction l with
  | nil => simp [setStatus, lookupStatus]
  | cons kv rest ih =>
    by_cases h : kv.1 == k
    · simp [setStatus, lookupStatus, h]
    · simp only [setStatus, lookupStatus, h]
      simpa [h] using ih

/-- C8: `IonChamber.trigger` keeps at most one acquisition in flight per
scaler prefix.  If the cached status for the prefix is not done, that same
status is returned and the state is unchanged (no new acquisition); a new
acquisition is started, returned pending and cached exactly when no status
is cached or the cached one is done. -/
theorem trigger_single_inflight (st : TriggerState) (scalerPfx : String) :
    (∀ prev, lookupStatus st.statuses scalerPfx = some prev → prev.done = false →
      trigger st scalerPfx = (prev, st)) ∧
    (lookupStatus st.statuses scalerPfx = none ∨
        (∃ prev, lookupStatus st.statuses scalerPfx = some prev ∧ prev.done = true) →
      trigger st scalerPfx = newAcquisition st scalerPfx ∧
      (trigger st scalerPfx).1.done = false ∧
      (trigger st scalerPfx).1.sid = st.nextSid ∧
      lookupStatus (trigger st scalerPfx).2.statuses scalerPfx =
        some (trigger st scalerPfx).1) := by
  constructor
  · intro prev hprev hdone
    unfold trigger
    rw [hprev]
    simp [hdone]
  · intro hidle
    have hnew : trigger st scalerPfx = newAcquisition st scalerPfx := by
      rcases hidle with hnone | ⟨prev, hprev, hdone⟩
      · unfold trigger
        rw [hnone]
      · unfold trigger
        rw [hprev]
        simp [hdone]
    refine ⟨hnew, ?_, ?_, ?_⟩
    · rw [hnew]; rfl
    · rw [hnew]; rfl
    · rw [hnew]
      exact lookupStatus_setStatus st.statuses scalerPfx _

/-- A concrete trigger state with one pending status cached under
`scaler_ioc` and one done status under `other_ioc`. -/
def triggerStateA : TriggerState :=
  { statuses :=
      [("scaler_ioc", { sid := 7, done := false }),
       ("other_ioc", { sid := 3, done := true })]
    nextSid := 8 }

/-- Witness for `trigger_single_inflight`: with a pending status cached for
`scaler_ioc`, triggering returns that same status unchanged, while the done
status for `other_ioc` leads to a fresh acquisition. -/
theorem trigger_single_inflight_witness :
    trigger triggerStateA "scaler_ioc" = ({ sid := 7, done := false }, triggerStateA) ∧
    trigger triggerStateA "other_ioc" = newAcquisition triggerStateA "other_ioc" := by
  constructor
  · exact (trigger_single_inflight triggerStateA "scaler_ioc").1
      { sid := 7, done := false } (by decide) rfl
  · exact ((trigger_single_inflight triggerStateA "other_ioc").2
      (Or.inr ⟨{ sid := 3, done := true }, by decide, rfl⟩)).1

/-! ## PFCUShutterSignal: forward / inverse bit-mask conversions -/

/-- `PFCUShutterSignal._mask` (`src/src/haven/instrument/xia_pfcu.py`):
the single-bit mask of filter slot `pos` in a four-filter bank,
`1 << (num_filters - pos)` with `num_filters = 4`. -/
def filterMask (pos : ℕ) : ℕ :=
  1 <<< (4 - pos)

/-- `shutter_state_map` (`src/src/haven/instrument/xia_pfcu.py` lines
51-57): maps `(top filter position, bottom filter position)` to the
`ShutterStates` value (`OPEN=0`, `CLOSED=1`, `TOP_CLOSED=2`,
`BOTTOM_CLOSED=3`); positions outside `{0,1}` are not keys. -/
def shutterStateMap : ℕ × ℕ → Option ℕ
  | (0, 1) => some 0
  | (1, 0) => some 1
  | (0, 0) => some 3
  | (1, 1) => some 2
  | _ => none

/-- `PFCUShutterSignal.forward`: convert a target shutter state to the
filter-bank bit state, setting the opening blade's bit and clearing the
closing blade's bit of the current readback; any state other than `OPEN`
or `CLOSED` raises `ValueError`. -/
def pfcuForward (topF bottomF oldBits value : ℕ) : Option ℕ :=
  if value = 0 then
    some ((oldBits ||| filterMask bottomF) &&& (15 - filterMask topF))
  else if value = 1 then
    some ((oldBits ||| filterMask topF) &&& (15 - filterMask bottomF))
  else
    none

/-- `PFCUShutterSignal.inverse`: read each blade's bit out of the
filter-bank state and translate the pair through `shutter_state_map`. -/
def pfcuInverse (topF bottomF value : ℕ) : Option ℕ :=
  shutterStateMap
    ((if value &&& filterMask topF ≠ 0 then 1 else 0),
     (if value &&& filterMask bottomF ≠ 0 then 1 else 0))

/-- C9: for every 4-bit filter-bank readback state and both target states
`OPEN = 0` and `CLOSED = 1`, the shutter conversions round-trip —
`inverse (forward s) = s` — for any two distinct filter slots 1..4 used as
the shutter blades; and `forward` fails (raises `ValueError`) on every
other target value. -/
theorem pfcu_shutter_roundtrip (topF bottomF oldBits : ℕ)
    (ht1 : 1 ≤ topF) (ht4 : topF ≤ 4) (hb1 : 1 ≤ bottomF) (hb4 : bottomF ≤ 4)
    (hne : topF ≠ bottomF) (hold : oldBits < 16) :
    (∀ s, s = 0 ∨ s = 1 →
      (pfcuForward topF bottomF oldBits s).bind (pfcuInverse topF bottomF) =
        some s) ∧
    (∀ s, s ≠ 0 → s ≠ 1 → pfcuForward topF bottomF oldBits s = none) := by
  constructor
  · rintro s (rfl | rfl) <;>
      (interval_cases topF <;> interval_cases bottomF <;>
        first
        | exact absurd rfl hne
        | (interval_cases oldBits <;> decide))
  · intro s h0 h1
    unfold pfcuForward
    rw [if_neg h0, if_neg h1]

/-- Witness for `pfcu_shutter_roundtrip`: blades in slots 3 (top) and 4
(bottom) — the shutter layout of the repository's PFCU tests — with
readback state 9. -/
theorem pfcu_shutter_roundtrip_witness :
    (pfcuForward 3 4 9 0).bind (pfcuInverse 3 4) = some 0 ∧
    pfcuForward 3 4 9 5 = none := by
  constructor
  · exact (pfcu_shutter_roundtrip 3 4 9 (by decide) (by decide) (by decide)
      (by decide) (by decide) (by decide)).1 0 (Or.inl rfl)
  · exact (pfcu_shutter_roundtrip 3 4 9 (by decide) (by decide) (by decide)
      (by decide) (by decide) (by decide)).2 5 (by decide) (by decide)

/-! ## Configuration overrides: `beamline_connected` and `load_config` -/

/-- A TOML configuration value as handled by `haven._iconfig`
(`src/src/haven/_iconfig.py`): booleans, strings, numbers and nested
tables (dictionaries in insertion order). -/
inductive TomlValue where
  | bool (b : Bool)
  | str (s : String)
  | num (n : ℤ)
  | table (kvs : List (String × TomlValue))

/-- `dict.get`: the first binding of the key, if any. -/
def lookupKV : List (String × TomlValue) → String → Option TomlValue
  | [], _ => none
  | kv :: rest, k => if kv.1 == k then some kv.2 else lookupKV rest k

/-- `dict[k] = v`: replace the binding of `k` in place, or append it. -/
def setKV : List (String × TomlValue) → String → TomlValue →
    List (String × TomlValue)
  | [], k, v => [(k, v)]
  | kv :: rest, k, v =>
    if kv.1 == k then (k, v) :: rest else kv :: setKV rest k v

/-- `mergedeep.merge` as used by `load_config`: each key of the source is
written into the destination, merging recursively when both sides hold
tables and replacing otherwise. -/
def mergeKVs (d : List (String × TomlValue)) :
    List (String × TomlValue) → List (String × TomlValue)
  | [] => d
  | (k, v) :: rest =>
    let newV :=
      match lookupKV d k, v with
      | some (.table dt), .table st => TomlValue.table (mergeKVs dt st)
      | _, _ => v
    mergeKVs (setKV d k newV) rest
termination_by l => sizeOf l

mutual

/-- `copy.deepcopy` on a TOML value: a structural copy sharing nothing
with the original. -/
def deepcopyValue : TomlValue → TomlValue
  | .bool b => .bool b
  | .str s => .str s
  | .num n => .num n
  | .table kvs => .table (deepcopyKVs kvs)

/-- `copy.deepcopy` on a dictionary of TOML values. -/
def deepcopyKVs : List (String × TomlValue) → List (String × TomlValue)
  | [] => []
  | (k, v) :: rest => (k, deepcopyValue v) :: deepcopyKVs rest

end

mutual

/-- A deep copy is equal (as a value) to the original. -/
lemma deepcopyValue_eq (v : TomlValue) : deepcopyValue v = v := by
  cases v with
  | bool b => rfl
  | str s => rfl
  | num n => rfl
  | table kvs => rw [deepcopyValue, deepcopyKVs_eq]

/-- A deep copy of a dictionary is equal (as a value) to the original. -/
lemma deepcopyKVs_eq (l : List (String × TomlValue)) : deepcopyKVs l = l := by
  cases l with
  | nil => rfl
  | cons kv rest =>
    rw [show kv = (kv.1, kv.2) from rfl, deepcopyKVs, deepcopyValue_eq,
      deepcopyKVs_eq]

end

/-- `load_config` (`src/src/haven/_iconfig.py` lines 50-71): merge the
configurations read from the TOML files, in order, followed by the
module-level `_local_overrides`, into one configuration. -/
def loadConfig (fileConfigs : List (List (String × TomlValue)))
    (localOverrides : List (String × TomlValue)) : List (String × TomlValue) :=
  (fileConfigs ++ [localOverrides]).foldl mergeKVs []

/-- The body of `beamline_connected` before the yield: ensure a `beamline`
table exists in the overrides and set its `is_connected` key. -/
def setBeamlineConnected (overrides : List (String × TomlValue))
    (isConnected : Bool) : List (String × TomlValue) :=
  let o1 :=
    if (lookupKV overrides "beamline").isNone then
      setKV overrides "beamline" (.table [])
    else
      overrides
  match lookupKV o1 "beamline" with
  | some (.table bt) =>
    setKV o1 "beamline" (.table (setKV bt "is_connected" (.bool isConnected)))
  | _ => o1

/-- `beamline_connected` (`src/src/haven/_iconfig.py` lines 105-117) for a
body that completes normally: deep-copy the current overrides, install the
temporary `beamline.is_connected` override for the scope of the body, and
assign the saved copy back on exit.  The result pairs the overrides seen
inside the scope with the overrides left after exit. -/
def beamlineConnected (isConnected : Bool)
    (overrides : List (String × TomlValue)) :
    List (String × TomlValue) × List (String × TomlValue) :=
  let oldDict := deepcopyKVs overrides
  (setBeamlineConnected overrides isConnected, oldDict)

/-- C10: when the body of `beamline_connected` completes normally the
module-level overrides are restored to their value from before entry — the
temporary `beamline.is_connected` override is discarded — so `load_config()`
results outside the scope are unaffected by the override, whatever
configuration files are in play. -/
theorem beamline_connected_restores (isConnected : Bool)
    (overrides : List (String × TomlValue)) :
    (beamlineConnected isConnected overrides).2 = overrides ∧
    (∀ fileConfigs,
      loadConfig fileConfigs (beamlineConnected isConnected overrides).2 =
        loadConfig fileConfigs overrides) := by
  have hrestore : (beamlineConnected isConnected overrides).2 = overrides :=
    deepcopyKVs_eq overrides
  exact ⟨hrestore, fun fileConfigs => by rw [hrestore]⟩

end Haven
